import Mathlib

/-
  Verification of the gomapper structural value-transfer engine.

  The definitions below are a shallow embedding of the Go source
  (package gomapper: Map / mapValues / mapField / mapSlice / mapMap /
  verifySliceTypesAreCompatible / verifyMapElemTypesAreCompatible /
  valueIsContainedInNilEmbeddedType, and nil_check.go's IsAnyNil).

  Go's reflection universe is modelled by an inductive type `GoType`
  (runtime types, with package path and name so that distinct defined
  types sharing a name are representable) and `GoVal` (runtime values;
  pointers, slices and maps carry a reference id so that the aliasing
  behaviour of the identical-type fast path is observable).  Reflection
  calls that can panic (FieldByIndex through a nil embedded pointer,
  IsNil on a non-nilable kind) return `Except String`; the recursive
  mapper returns a result type `Res` with constructors for success,
  a returned error, a propagating panic (`fault`) and fuel exhaustion
  (the Go recursion is modelled fuel-indexed; every recursive call
  strictly decreases the fuel).
-/

namespace Gomapper

/-- Reflection kinds, as needed by the mapper's dispatch and by IsAnyNil. -/
inductive GoKind where
  | kPtr
  | kStruct
  | kSlice
  | kMap
  | kChan
  | kArray
  | kOther (s : String)
deriving DecidableEq

mutual
/-- Go runtime types. `prim` is any scalar/leaf type, carrying its package
path, its name and its kind string (e.g. a builtin `int` is
`prim "" "int" "int"`, a defined `type K int` in package a is
`prim "a" "K" "int"`). Struct types carry package path, name and field
declarations. -/
inductive GoType where
  | prim (pkg nm kindStr : String) : GoType
  | ptr (elem : GoType) : GoType
  | slice (elem : GoType) : GoType
  | arr (len : Nat) (elem : GoType) : GoType
  | gomap (key val : GoType) : GoType
  | chanT (elem : GoType) : GoType
  | strct (pkg nm : String) (fields : GoFields) : GoType

/-- Struct field declarations: field name, whether the field is
anonymous/embedded, whether it is exported, and its type. -/
inductive GoFields where
  | nil : GoFields
  | cons (name : String) (anon exported : Bool) (ty : GoType) (rest : GoFields) : GoFields
end

/-- A single field declaration as returned by reflection lookups. -/
structure FieldDecl where
  name : String
  anon : Bool
  exported : Bool
  ty : GoType

def GoFields.length : GoFields → Nat
  | .nil => 0
  | .cons _ _ _ _ rest => rest.length + 1

def GoFields.get? : GoFields → Nat → Option FieldDecl
  | .nil, _ => none
  | .cons nm a e t _, 0 => some ⟨nm, a, e, t⟩
  | .cons _ _ _ _ rest, n + 1 => rest.get? n

/-- Kind of a runtime type (reflect.Type.Kind). -/
def kindOf : GoType → GoKind
  | .prim _ _ k => .kOther k
  | .ptr _ => .kPtr
  | .slice _ => .kSlice
  | .arr _ _ => .kArray
  | .gomap _ _ => .kMap
  | .chanT _ => .kChan
  | .strct _ _ _ => .kStruct

/-- Kind().String(), used in the mapper's shape-mismatch error messages. -/
def kindStr (t : GoType) : String :=
  match kindOf t with
  | .kPtr => "ptr"
  | .kStruct => "struct"
  | .kSlice => "slice"
  | .kMap => "map"
  | .kChan => "chan"
  | .kArray => "array"
  | .kOther s => s

/-- Type.Name(): the name of a defined type within its package; unnamed
composite types have the empty name. -/
def typeName : GoType → String
  | .prim _ nm _ => nm
  | .strct _ nm _ => nm
  | _ => ""

/-- Element type of a pointer type (Type.Elem); identity on other types
(those uses are unreachable in the mapper). -/
def elemOfPtr : GoType → GoType
  | .ptr e => e
  | t => t

/-- Element type of a slice type (Type.Elem). -/
def elemOfSlice : GoType → GoType
  | .slice e => e
  | t => t

/-- Key type of a map type (Type.Key). -/
def keyOf : GoType → GoType
  | .gomap k _ => k
  | t => t

/-- Value type of a map type (Type.Elem). -/
def elemOfMap : GoType → GoType
  | .gomap _ v => v
  | t => t

/-- Field declarations of a struct type. -/
def declsOf : GoType → GoFields
  | .strct _ _ fs => fs
  | _ => .nil

mutual
/-- Runtime type equality (reflect types compare with ==; identity of the
type descriptor, here structural equality of the model). -/
def teq : GoType → GoType → Bool
  | .prim p1 n1 k1, .prim p2 n2 k2 => p1 = p2 && n1 = n2 && k1 = k2
  | .ptr a, .ptr b => teq a b
  | .slice a, .slice b => teq a b
  | .arr m a, .arr n b => m = n && teq a b
  | .gomap k1 v1, .gomap k2 v2 => teq k1 k2 && teq v1 v2
  | .chanT a, .chanT b => teq a b
  | .strct p1 n1 f1, .strct p2 n2 f2 => p1 = p2 && n1 = n2 && feq f1 f2
  | _, _ => false

def feq : GoFields → GoFields → Bool
  | .nil, .nil => true
  | .cons n1 a1 e1 t1 r1, .cons n2 a2 e2 t2 r2 =>
      n1 = n2 && a1 = a2 && e1 = e2 && teq t1 t2 && feq r1 r2
  | _, _ => false
end

mutual
theorem teq_refl : ∀ t, teq t t = true
  | .prim p n k => by simp [teq]
  | .ptr a => by simp [teq, teq_refl a]
  | .slice a => by simp [teq, teq_refl a]
  | .arr m a => by simp [teq, teq_refl a]
  | .gomap k v => by simp [teq, teq_refl k, teq_refl v]
  | .chanT a => by simp [teq, teq_refl a]
  | .strct p n fs => by simp [teq, feq_refl fs]

theorem feq_refl : ∀ fs, feq fs fs = true
  | .nil => by simp [feq]
  | .cons n a e t r => by simp [feq, teq_refl t, feq_refl r]
end

/-- Go runtime values. Pointers, slices and maps carry a reference id so
that reference aliasing is observable in the model; values freshly
allocated by the mapper use id 0. Slices and maps have an explicit
nilness flag (a nil slice or map has no elements). -/
inductive GoVal where
  | prim (t : GoType) (data : Nat) : GoVal
  | ptrNil (elem : GoType) : GoVal
  | ptrTo (elem : GoType) (id : Nat) (pointee : GoVal) : GoVal
  | strct (t : GoType) (fields : List GoVal) : GoVal
  | sliceV (elem : GoType) (id : Nat) (isNil : Bool) (elems : List GoVal) : GoVal
  | mapV (key val : GoType) (id : Nat) (isNil : Bool) (entries : List (GoVal × GoVal)) : GoVal
  | chanV (elem : GoType) (isNil : Bool) : GoVal
  | arrV (elem : GoType) (elems : List GoVal) : GoVal

/-- reflect.Value.Type of a value. -/
def typeOf : GoVal → GoType
  | .prim t _ => t
  | .ptrNil e => .ptr e
  | .ptrTo e _ _ => .ptr e
  | .strct t _ => t
  | .sliceV e _ _ _ => .slice e
  | .mapV k v _ _ _ => .gomap k v
  | .chanV e _ => .chanT e
  | .arrV e es => .arr es.length e

mutual
/-- The zero value of a type (reflect.New(t).Elem()). -/
def zeroVal : GoType → GoVal
  | .prim p n k => .prim (.prim p n k) 0
  | .ptr e => .ptrNil e
  | .slice e => .sliceV e 0 true []
  | .arr n e => .arrV e (List.replicate n (zeroVal e))
  | .gomap k v => .mapV k v 0 true []
  | .chanT e => .chanV e true
  | .strct p n fs => .strct (.strct p n fs) (zeroFields fs)

def zeroFields : GoFields → List GoVal
  | .nil => []
  | .cons _ _ _ t rest => zeroVal t :: zeroFields rest
end

theorem length_zeroFields : ∀ fs, (zeroFields fs).length = fs.length
  | .nil => rfl
  | .cons n a e t r => by simp [zeroFields, GoFields.length, length_zeroFields r]

theorem typeOf_zeroVal : ∀ t, typeOf (zeroVal t) = t := by
  intro t
  cases t <;> simp [zeroVal, typeOf]

/-- isReflectValNil from nil_check.go: kind is pointer and the pointer is
nil (value.Type().Kind() == reflect.Ptr && value.IsNil()). -/
def isReflectValNil : GoVal → Bool
  | .ptrNil _ => true
  | _ => false

/-- The fields of a struct value. -/
def structFields : GoVal → List GoVal
  | .strct _ fs => fs
  | _ => []

/-- reflect.Value.Field(i) on a struct value (callers keep i in range;
out-of-range access yields a placeholder). -/
def structFieldAt (v : GoVal) (i : Nat) : GoVal :=
  (structFields v).getD i (.prim (.prim "" "invalid" "invalid") 0)

/-- Replace field i of a struct value (the effect of destVal.Field(i).Set). -/
def setField (v : GoVal) (i : Nat) (x : GoVal) : GoVal :=
  match v with
  | .strct t fs => .strct t (fs.set i x)
  | v => v

/-- Field declaration i of a struct type (Type.Field(i)). -/
def fieldDeclAt (t : GoType) (i : Nat) : FieldDecl :=
  ((declsOf t).get? i).getD ⟨"", false, false, .prim "" "invalid" "invalid"⟩

/-- Number of fields of a struct value's type (Value.NumField). -/
def numFields (v : GoVal) : Nat := (declsOf (typeOf v)).length

/-- Slice length (Value.Len; a nil slice has length 0). -/
def sliceLen : GoVal → Nat
  | .sliceV _ _ _ es => es.length
  | _ => 0

/-- The elements of a slice value, in index order. -/
def sliceElemsOf : GoVal → List GoVal
  | .sliceV _ _ _ es => es
  | _ => []

/-- Map length (Value.Len; a nil map has length 0). -/
def mapLen : GoVal → Nat
  | .mapV _ _ _ _ es => es.length
  | _ => 0

/-- The entries of a map value (Value.MapKeys / MapIndex iteration order
is modelled as the entry list's order). -/
def mapEntriesOf : GoVal → List (GoVal × GoVal)
  | .mapV _ _ _ _ es => es
  | _ => []

/-- Panic message raised by reflect when FieldByIndex dereferences a nil
embedded pointer. -/
def nilPtrMsg : String := "reflect: indirection through nil pointer to embedded struct"

mutual
/-- All promoted-field matches for a name on a type: pairs of promotion
depth and index path, collected through anonymous/embedded fields
(dereferencing embedded pointer types), as reflect's FieldByName search
does over the type tree. -/
def allMatches : GoType → String → List (Nat × List Nat)
  | .strct _ _ fs, name => fieldsMatches fs name 0
  | _, _ => []

def fieldsMatches : GoFields → String → Nat → List (Nat × List Nat)
  | .nil, _, _ => []
  | .cons nm anon _exp ty rest, name, i =>
      (if nm = name then [(0, [i])] else []) ++
      (if anon then
        (match ty with
         | .ptr e => allMatches e name
         | t => allMatches t name).map (fun (dp : Nat × List Nat) => (dp.1 + 1, i :: dp.2))
       else []) ++
      fieldsMatches rest name (i + 1)
end

/-- The minimal promotion depth among a list of matches. -/
def bestDepth (ms : List (Nat × List Nat)) : Option Nat :=
  ms.foldr (fun (dp : Nat × List Nat) acc =>
    match acc with
    | none => some dp.1
    | some d => some (min dp.1 d)) none

/-- Type.FieldByName: the index path of the unique match at the shallowest
promotion depth; the empty path when there is no match or the shallowest
depth is ambiguous (reflect then reports ok = false, and the zero
StructField has an empty Index). -/
def typeFieldIndex (t : GoType) (name : String) : List Nat :=
  let ms := allMatches t name
  match bestDepth ms with
  | none => []
  | some d =>
      match ms.filter (fun dp => dp.1 = d) with
      | [dp] => dp.2
      | _ => []

/-- Steps of Value.FieldByIndex after the first index: each further step
dereferences a pointer to struct (panicking on nil) and selects a field. -/
def fbiAux : GoVal → List Nat → Except String GoVal
  | v, [] => .ok v
  | v, i :: rest =>
      match v with
      | .ptrNil e =>
          if kindOf e = .kStruct then .error nilPtrMsg
          else fbiAux (structFieldAt (.ptrNil e) i) rest
      | .ptrTo e idp p =>
          if kindOf e = .kStruct then fbiAux (structFieldAt p i) rest
          else fbiAux (structFieldAt (.ptrTo e idp p) i) rest
      | v => fbiAux (structFieldAt v i) rest

/-- Value.FieldByIndex. -/
def fieldByIndexV (v : GoVal) (path : List Nat) : Except String GoVal :=
  match path with
  | [] => .ok v
  | i :: rest => fbiAux (structFieldAt v i) rest

/-- Value.FieldByName: resolve the index path on the type, then walk it on
the value; `none` models the zero reflect.Value of a failed lookup. -/
def fieldByNameV (v : GoVal) (name : String) : Except String (Option GoVal) :=
  match typeFieldIndex (typeOf v) name with
  | [] => .ok none
  | p =>
      match fieldByIndexV v p with
      | .error m => .error m
      | .ok w => .ok (some w)

/-- valueIsContainedInNilEmbeddedType: if the field's index path has more
than one step, evaluate the path without its last step; the field is
contained in a nil embedded type when that parent value is a nil pointer.
Walking the path itself may panic on a nil pointer at an earlier step. -/
def valueIsContainedInNilEmbeddedType (source : GoVal) (fieldName : String) :
    Except String Bool :=
  let ix := typeFieldIndex (typeOf source) fieldName
  if 1 < ix.length then
    match fieldByIndexV source ix.dropLast with
    | .error m => .error m
    | .ok parentField => .ok (isReflectValNil parentField)
  else .ok false

/-- Errors returned by the mapper, one constructor per distinct error site
of the source (the string arguments mirror the data interpolated into the
corresponding Go error message). -/
inductive MapErr where
  | optionCount : MapErr
  | sourceNil : MapErr
  | destNil : MapErr
  | destNotPtr : MapErr
  | notCompatible (srcName destName : String) : MapErr
  | kindMismatch (destKind srcKind : String) : MapErr
  | fieldCanNotSet (field : String) (destT srcT : GoType) : MapErr
  | fieldMissing (field : String) (srcT destT : GoType) : MapErr
  | mapKeyTypesNotEqual (srcKeyName destKeyName : String) : MapErr
  | recovered (msg : String) : MapErr

/-- Result of a mapper computation: success with the updated destination
value, a returned error, a propagating panic (`fault`), or fuel
exhaustion of the model's fuel-indexed recursion. -/
inductive Res (α : Type) where
  | ok (v : α) : Res α
  | err (e : MapErr) : Res α
  | fault (msg : String) : Res α
  | nofuel : Res α

abbrev MVRes := Res GoVal

/-- Pretty printing of types for panic messages (the %v rendering used in
mapField's re-panic format). -/
def typeStr : GoType → String
  | .prim pkg nm _ => if pkg = "" then nm else pkg ++ "." ++ nm
  | .ptr e => "*" ++ typeStr e
  | .slice e => "[]" ++ typeStr e
  | .arr n e => "[" ++ toString n ++ "]" ++ typeStr e
  | .gomap k v => "map[" ++ typeStr k ++ "]" ++ typeStr v
  | .chanT e => "chan " ++ typeStr e
  | .strct pkg nm _ => if pkg = "" then nm else pkg ++ "." ++ nm

/-- The panic message mapField re-raises when a fault surfaces beneath a
field's recursive copy, naming the field, both types and the fault. -/
def fieldFaultMsg (field : String) (destT srcT : GoType) (r : String) : String :=
  "gomapper: error mapping field: " ++ field ++ ". DestType: " ++ typeStr destT ++
    " SourceType: " ++ typeStr srcT ++ " Error: " ++ r

/-- One pointer dereference (Value.Elem) applied when the source kind is a
pointer; identity otherwise. In the mapper this is only reached on
non-nil pointers (nil sources are normalized away first). -/
def derefIfPtr : GoVal → GoVal
  | .ptrTo _ _ p => p
  | v => v

/-- The underlying type of a runtime type: a defined struct type's
underlying type is the unnamed struct type with the same fields; scalar
types (always named, builtins included) and the unnamed composite types
are their own underlying type. -/
def underlying : GoType → GoType
  | .strct _ _ fs => .strct "" "" fs
  | t => t

/-- Go assignability as checked by reflect.Value.SetMapIndex for the key
(and by Value.Set): a value of type v is assignable to type t when the
types are identical, or when their underlying types are identical and at
least one of the two is unnamed. Two distinct defined (named) types are
never assignable to each other, even with identical underlying types. -/
def assignableTo (v t : GoType) : Bool :=
  teq v t || ((typeName v = "" || typeName t = "") && teq (underlying v) (underlying t))

/-- The panic message reflect raises when SetMapIndex is given a key that
is not assignable to the map's key type. -/
def setMapIndexPanicMsg (v t : GoType) : String :=
  "reflect.Value.SetMapIndex: value of type " ++ typeStr v ++
    " is not assignable to type " ++ typeStr t

mutual
/-- mapValues: the recursive value copier/dispatcher of the source, with
fuel-indexed recursion, an explicit destination-settability flag
(destVal.CanSet) and the strictness flag `exact`. -/
def mapValues (fuel : Nat) (sourceVal destVal : GoVal) (canset exact : Bool) : MVRes :=
  match fuel with
  | 0 => .nofuel
  | n + 1 =>
    if canset && teq (typeOf destVal) (typeOf sourceVal) then
      .ok sourceVal
    else if kindOf (typeOf destVal) = .kPtr then
      if isReflectValNil sourceVal then .ok destVal
      else
        let elemT := elemOfPtr (typeOf destVal)
        match mapValues n sourceVal (zeroVal elemT) true exact with
        | .ok pv => .ok (.ptrTo elemT 0 pv)
        | .err e => .err e
        | .fault m => .fault m
        | .nofuel => .nofuel
    else if kindOf (typeOf destVal) = .kStruct then
      let s1 :=
        if isReflectValNil sourceVal then
          GoVal.ptrTo (elemOfPtr (typeOf sourceVal)) 0 (zeroVal (elemOfPtr (typeOf sourceVal)))
        else sourceVal
      let s2 := derefIfPtr s1
      if kindOf (typeOf s2) = .kStruct then
        mapFieldsFrom n s2 destVal canset exact 0 (numFields destVal)
      else .err (.kindMismatch "struct" (kindStr (typeOf s2)))
    else if kindOf (typeOf destVal) = .kSlice then
      if isReflectValNil sourceVal then .ok destVal
      else
        let s2 := derefIfPtr sourceVal
        if kindOf (typeOf s2) = .kSlice then mapSlice n s2 destVal exact
        else .err (.kindMismatch "slice" (kindStr (typeOf s2)))
    else if kindOf (typeOf destVal) = .kMap then
      if isReflectValNil sourceVal then .ok destVal
      else
        let s2 := derefIfPtr sourceVal
        if kindOf (typeOf s2) = .kMap then mapMap n s2 destVal exact
        else .err (.kindMismatch "map" (kindStr (typeOf s2)))
    else
      .err (.notCompatible (typeName (typeOf sourceVal)) (typeName (typeOf destVal)))
termination_by structural fuel

/-- The destination-field loop of mapValues' struct branch: map fields
i, i+1, ... while `k` fields remain, threading the updated destination;
any error/fault aborts the loop. -/
def mapFieldsFrom (fuel : Nat) (source destv : GoVal) (canset exact : Bool) (i k : Nat) : MVRes :=
  match fuel with
  | 0 => .nofuel
  | n + 1 =>
    match k with
    | 0 => .ok destv
    | k' + 1 =>
      match mapField n source destv canset i exact with
      | .ok d2 => mapFieldsFrom n source d2 canset exact (i + 1) k'
      | .err e => .err e
      | .fault m => .fault m
      | .nofuel => .nofuel
termination_by structural fuel

/-- The body of mapField (everything under the deferred recover). -/
def mapFieldBody (fuel : Nat) (source destv : GoVal) (canset : Bool) (i : Nat) (exact : Bool) : MVRes :=
  match fuel with
  | 0 => .nofuel
  | n + 1 =>
    let destT := typeOf destv
    let fl := fieldDeclAt destT i
    let destField := structFieldAt destv i
    if !(canset && fl.exported) then
      if exact then .err (.fieldCanNotSet fl.name destT (typeOf source))
      else .ok destv
    else if fl.anon then
      match mapValues n source destField true exact with
      | .ok v => .ok (setField destv i v)
      | .err e => .err e
      | .fault m => .fault m
      | .nofuel => .nofuel
    else
      match valueIsContainedInNilEmbeddedType source fl.name with
      | .error m => .fault m
      | .ok true => .ok destv
      | .ok false =>
        match fieldByNameV source fl.name with
        | .error m => .fault m
        | .ok none =>
            if exact then .err (.fieldMissing fl.name (typeOf source) destT)
            else .ok destv
        | .ok (some sf) =>
          match mapValues n sf destField true exact with
          | .ok v => .ok (setField destv i v)
          | .err e => .err e
          | .fault m => .fault m
          | .nofuel => .nofuel
termination_by structural fuel

/-- mapField: the body wrapped in the deferred recover that re-raises any
panic as a descriptive message naming the field and both types. -/
def mapField (fuel : Nat) (source destv : GoVal) (canset : Bool) (i : Nat) (exact : Bool) : MVRes :=
  match fuel with
  | 0 => .nofuel
  | n + 1 =>
    match mapFieldBody n source destv canset i exact with
    | .fault r => .fault (fieldFaultMsg (fieldDeclAt (typeOf destv) i).name (typeOf destv) (typeOf source) r)
    | r => r
termination_by structural fuel

/-- The element loop of mapSlice: for each source element, allocate a
zero destination element, recursively copy, and collect the results. -/
def mapSliceElems (fuel : Nat) (xs : List GoVal) (elemT : GoType) (exact : Bool) : Res (List GoVal) :=
  match fuel with
  | 0 => .nofuel
  | n + 1 =>
    match xs with
    | [] => .ok []
    | x :: rest =>
      match mapValues n x (zeroVal elemT) true exact with
      | .ok v =>
        match mapSliceElems n rest elemT exact with
        | .ok vs => .ok (v :: vs)
        | .err e => .err e
        | .fault m => .fault m
        | .nofuel => .nofuel
      | .err e => .err e
      | .fault m => .fault m
      | .nofuel => .nofuel
termination_by structural fuel

/-- mapSlice: build a fresh destination slice of the source's length,
copy element-wise, probe compatibility when the source has length zero,
and install the new slice on success. -/
def mapSlice (fuel : Nat) (sourceVal destVal : GoVal) (exact : Bool) : MVRes :=
  match fuel with
  | 0 => .nofuel
  | n + 1 =>
    let destT := typeOf destVal
    let elemT := elemOfSlice destT
    match mapSliceElems n (sliceElemsOf sourceVal) elemT exact with
    | .ok vs =>
      if sliceLen sourceVal = 0 then
        match verifySliceTypesAreCompatible n sourceVal destVal exact with
        | .ok _ => .ok (.sliceV elemT 0 false vs)
        | .err e => .err e
        | .fault m => .fault m
        | .nofuel => .nofuel
      else .ok (.sliceV elemT 0 false vs)
    | .err e => .err e
    | .fault m => .fault m
    | .nofuel => .nofuel
termination_by structural fuel

/-- verifySliceTypesAreCompatible: probe with a synthetic one-element
source slice (MakeSlice with zero-valued element) against a synthetic
settable destination slot of type pointer-to-destination-slice-type. -/
def verifySliceTypesAreCompatible (fuel : Nat) (sourceVal destVal : GoVal) (exact : Bool) : MVRes :=
  match fuel with
  | 0 => .nofuel
  | n + 1 =>
    let dummyDest := zeroVal (.ptr (typeOf destVal))
    let srcElemT := elemOfSlice (typeOf sourceVal)
    let dummySource := GoVal.sliceV srcElemT 0 false [zeroVal srcElemT]
    mapValues n dummySource dummyDest true exact
termination_by structural fuel

/-- The entry loop of mapMap: for each source key, allocate a zero
destination element, recursively copy the source element into it and
insert it under the same key with targetMap.SetMapIndex(key, destElem).
SetMapIndex panics when the key is not assignable to the destination
map's key type keyT (the element side of SetMapIndex cannot fail: the
destination element was allocated at exactly the map's value type). -/
def mapMapEntries (fuel : Nat) (es : List (GoVal × GoVal)) (keyT elemT : GoType)
    (exact : Bool) : Res (List (GoVal × GoVal)) :=
  match fuel with
  | 0 => .nofuel
  | n + 1 =>
    match es with
    | [] => .ok []
    | kv :: rest =>
      match mapValues n kv.2 (zeroVal elemT) true exact with
      | .ok v =>
        if assignableTo (typeOf kv.1) keyT then
          match mapMapEntries n rest keyT elemT exact with
          | .ok vs => .ok ((kv.1, v) :: vs)
          | .err e => .err e
          | .fault m => .fault m
          | .nofuel => .nofuel
        else .fault (setMapIndexPanicMsg (typeOf kv.1) keyT)
      | .err e => .err e
      | .fault m => .fault m
      | .nofuel => .nofuel
termination_by structural fuel

/-- mapMap: compare key types by name first (mismatch is an immediate
error), then copy entry-wise into a fresh map, probe compatibility when
the source is empty, and install the new map on success. -/
def mapMap (fuel : Nat) (sourceVal destVal : GoVal) (exact : Bool) : MVRes :=
  match fuel with
  | 0 => .nofuel
  | n + 1 =>
    let sourceKeyT := keyOf (typeOf sourceVal)
    let destT := typeOf destVal
    let destKeyT := keyOf destT
    if typeName sourceKeyT ≠ typeName destKeyT then
      .err (.mapKeyTypesNotEqual (typeName sourceKeyT) (typeName destKeyT))
    else
      match mapMapEntries n (mapEntriesOf sourceVal) destKeyT (elemOfMap destT) exact with
      | .ok es =>
        if mapLen sourceVal = 0 then
          match verifyMapElemTypesAreCompatible n sourceVal destVal exact with
          | .ok _ => .ok (.mapV (keyOf destT) (elemOfMap destT) 0 false es)
          | .err e => .err e
          | .fault m => .fault m
          | .nofuel => .nofuel
        else .ok (.mapV (keyOf destT) (elemOfMap destT) 0 false es)
      | .err e => .err e
      | .fault m => .fault m
      | .nofuel => .nofuel
termination_by structural fuel

/-- verifyMapElemTypesAreCompatible: probe with zero-valued synthetic
source and destination elements of the two maps' value types. -/
def verifyMapElemTypesAreCompatible (fuel : Nat) (sourceVal destVal : GoVal) (exact : Bool) : MVRes :=
  match fuel with
  | 0 => .nofuel
  | n + 1 =>
    let dummyDestElem := zeroVal (elemOfMap (typeOf destVal))
    let dummySourceElem := zeroVal (elemOfMap (typeOf sourceVal))
    mapValues n dummySourceElem dummyDestElem true exact
termination_by structural fuel
end

/-- Value.IsNil: defined on chan, map, pointer and slice values; calling
it on any other kind panics. -/
def valIsNil (v : GoVal) : Except String Bool :=
  match v with
  | .ptrNil _ => .ok true
  | .ptrTo _ _ _ => .ok false
  | .mapV _ _ _ nl _ => .ok nl
  | .sliceV _ _ nl _ => .ok nl
  | .chanV _ nl => .ok nl
  | v => .error ("reflect: call of reflect.Value.IsNil on " ++ kindStr (typeOf v) ++ " Value")

/-- IsAnyNil from nil_check.go: true for the untyped nil interface;
otherwise switch on the value's kind and, for Ptr, Map, Array, Chan and
Slice, return reflect.ValueOf(x).IsNil(). -/
def isAnyNilB (x : Option GoVal) : Except String Bool :=
  match x with
  | none => .ok true
  | some v =>
    match kindOf (typeOf v) with
    | .kPtr => valIsNil v
    | .kMap => valIsNil v
    | .kArray => valIsNil v
    | .kChan => valIsNil v
    | .kSlice => valIsNil v
    | _ => .ok false

/-- verifyMapOption: at most one option is accepted; the default option
has Exact = false. An option is modelled by its Exact flag. -/
def verifyMapOption (options : List Bool) : Except MapErr Bool :=
  match options with
  | [] => .ok false
  | [b] => .ok b
  | _ => .error .optionCount

/-- The body of Map (everything under the top-level deferred recover):
validate the option, reject nil source/dest and non-pointer dest,
dereference a pointer source, and run mapValues on dest's pointee. -/
def mapBody (n : Nat) (source dest : Option GoVal) (options : List Bool) : MVRes :=
  match verifyMapOption options with
  | .error e => .err e
  | .ok exact =>
    match isAnyNilB source with
    | .error m => .fault m
    | .ok true => .err .sourceNil
    | .ok false =>
      match isAnyNilB dest with
      | .error m => .fault m
      | .ok true => .err .destNil
      | .ok false =>
        match dest with
        | none => .err .destNil
        | some dv =>
          if kindOf (typeOf dv) ≠ .kPtr then .err .destNotPtr
          else
            match source with
            | none => .err .sourceNil
            | some sv =>
              let sourceVal := if kindOf (typeOf sv) = .kPtr then derefIfPtr sv else sv
              mapValues n sourceVal (derefIfPtr dv) true exact

/-- The top-level deferred recover of Map: a panic becomes a returned
error; all other outcomes pass through. -/
def convertRecover : MVRes → MVRes
  | .fault m => .err (.recovered m)
  | r => r

/-- Map: the public entry point, its body wrapped in the recover. -/
def MapGo (n : Nat) (source dest : Option GoVal) (options : List Bool) : MVRes :=
  convertRecover (mapBody n source dest options)

/-- One-step unfolding of mapValues at positive fuel. -/
theorem mapValues_succ (n : Nat) (sourceVal destVal : GoVal) (canset exact : Bool) :
    mapValues (n + 1) sourceVal destVal canset exact =
      (if canset && teq (typeOf destVal) (typeOf sourceVal) then
        .ok sourceVal
      else if kindOf (typeOf destVal) = .kPtr then
        if isReflectValNil sourceVal then .ok destVal
        else
          match mapValues n sourceVal (zeroVal (elemOfPtr (typeOf destVal))) true exact with
          | .ok pv => .ok (.ptrTo (elemOfPtr (typeOf destVal)) 0 pv)
          | .err e => .err e
          | .fault m => .fault m
          | .nofuel => .nofuel
      else if kindOf (typeOf destVal) = .kStruct then
        if kindOf (typeOf (derefIfPtr (if isReflectValNil sourceVal then
            GoVal.ptrTo (elemOfPtr (typeOf sourceVal)) 0 (zeroVal (elemOfPtr (typeOf sourceVal)))
          else sourceVal))) = .kStruct then
          mapFieldsFrom n (derefIfPtr (if isReflectValNil sourceVal then
              GoVal.ptrTo (elemOfPtr (typeOf sourceVal)) 0 (zeroVal (elemOfPtr (typeOf sourceVal)))
            else sourceVal)) destVal canset exact 0 (numFields destVal)
        else
          .err (.kindMismatch "struct" (kindStr (typeOf (derefIfPtr (if isReflectValNil sourceVal then
            GoVal.ptrTo (elemOfPtr (typeOf sourceVal)) 0 (zeroVal (elemOfPtr (typeOf sourceVal)))
          else sourceVal)))))
      else if kindOf (typeOf destVal) = .kSlice then
        if isReflectValNil sourceVal then .ok destVal
        else
          if kindOf (typeOf (derefIfPtr sourceVal)) = .kSlice then
            mapSlice n (derefIfPtr sourceVal) destVal exact
          else .err (.kindMismatch "slice" (kindStr (typeOf (derefIfPtr sourceVal))))
      else if kindOf (typeOf destVal) = .kMap then
        if isReflectValNil sourceVal then .ok destVal
        else
          if kindOf (typeOf (derefIfPtr sourceVal)) = .kMap then
            mapMap n (derefIfPtr sourceVal) destVal exact
          else .err (.kindMismatch "map" (kindStr (typeOf (derefIfPtr sourceVal))))
      else
        .err (.notCompatible (typeName (typeOf sourceVal)) (typeName (typeOf destVal)))) := rfl

/-- One-step unfolding of mapFieldsFrom at positive fuel. -/
theorem mapFieldsFrom_succ (n : Nat) (source destv : GoVal) (canset exact : Bool) (i k : Nat) :
    mapFieldsFrom (n + 1) source destv canset exact i k =
      (match k with
      | 0 => .ok destv
      | k' + 1 =>
        match mapField n source destv canset i exact with
        | .ok d2 => mapFieldsFrom n source d2 canset exact (i + 1) k'
        | .err e => .err e
        | .fault m => .fault m
        | .nofuel => .nofuel) := rfl

/-- One-step unfolding of mapFieldBody at positive fuel. -/
theorem mapFieldBody_succ (n : Nat) (source destv : GoVal) (canset : Bool) (i : Nat) (exact : Bool) :
    mapFieldBody (n + 1) source destv canset i exact =
      (if !(canset && (fieldDeclAt (typeOf destv) i).exported) then
        if exact then .err (.fieldCanNotSet (fieldDeclAt (typeOf destv) i).name (typeOf destv) (typeOf source))
        else .ok destv
      else if (fieldDeclAt (typeOf destv) i).anon then
        match mapValues n source (structFieldAt destv i) true exact with
        | .ok v => .ok (setField destv i v)
        | .err e => .err e
        | .fault m => .fault m
        | .nofuel => .nofuel
      else
        match valueIsContainedInNilEmbeddedType source (fieldDeclAt (typeOf destv) i).name with
        | .error m => .fault m
        | .ok true => .ok destv
        | .ok false =>
          match fieldByNameV source (fieldDeclAt (typeOf destv) i).name with
          | .error m => .fault m
          | .ok none =>
              if exact then .err (.fieldMissing (fieldDeclAt (typeOf destv) i).name (typeOf source) (typeOf destv))
              else .ok destv
          | .ok (some sf) =>
            match mapValues n sf (structFieldAt destv i) true exact with
            | .ok v => .ok (setField destv i v)
            | .err e => .err e
            | .fault m => .fault m
            | .nofuel => .nofuel) := rfl

/-- One-step unfolding of mapField at positive fuel. -/
theorem mapField_succ (n : Nat) (source destv : GoVal) (canset : Bool) (i : Nat) (exact : Bool) :
    mapField (n + 1) source destv canset i exact =
      (match mapFieldBody n source destv canset i exact with
      | .fault r =>
          Res.fault (fieldFaultMsg (fieldDeclAt (typeOf destv) i).name (typeOf destv) (typeOf source) r)
      | r => r) := rfl

/-- One-step unfolding of mapSliceElems at positive fuel. -/
theorem mapSliceElems_succ (n : Nat) (xs : List GoVal) (elemT : GoType) (exact : Bool) :
    mapSliceElems (n + 1) xs elemT exact =
      (match xs with
      | [] => .ok []
      | x :: rest =>
        match mapValues n x (zeroVal elemT) true exact with
        | .ok v =>
          match mapSliceElems n rest elemT exact with
          | .ok vs => .ok (v :: vs)
          | .err e => .err e
          | .fault m => .fault m
          | .nofuel => .nofuel
        | .err e => .err e
        | .fault m => .fault m
        | .nofuel => .nofuel) := rfl

/-- One-step unfolding of mapSlice at positive fuel. -/
theorem mapSlice_succ (n : Nat) (sourceVal destVal : GoVal) (exact : Bool) :
    mapSlice (n + 1) sourceVal destVal exact =
      (match mapSliceElems n (sliceElemsOf sourceVal) (elemOfSlice (typeOf destVal)) exact with
      | .ok vs =>
        if sliceLen sourceVal = 0 then
          match verifySliceTypesAreCompatible n sourceVal destVal exact with
          | .ok _ => .ok (.sliceV (elemOfSlice (typeOf destVal)) 0 false vs)
          | .err e => .err e
          | .fault m => .fault m
          | .nofuel => .nofuel
        else .ok (.sliceV (elemOfSlice (typeOf destVal)) 0 false vs)
      | .err e => .err e
      | .fault m => .fault m
      | .nofuel => .nofuel) := rfl

/-- One-step unfolding of verifySliceTypesAreCompatible at positive fuel. -/
theorem verifySlice_succ (n : Nat) (sourceVal destVal : GoVal) (exact : Bool) :
    verifySliceTypesAreCompatible (n + 1) sourceVal destVal exact =
      mapValues n
        (GoVal.sliceV (elemOfSlice (typeOf sourceVal)) 0 false [zeroVal (elemOfSlice (typeOf sourceVal))])
        (zeroVal (.ptr (typeOf destVal))) true exact := rfl

/-- One-step unfolding of mapMapEntries at positive fuel. -/
theorem mapMapEntries_succ (n : Nat) (es : List (GoVal × GoVal)) (keyT elemT : GoType)
    (exact : Bool) :
    mapMapEntries (n + 1) es keyT elemT exact =
      (match es with
      | [] => .ok []
      | kv :: rest =>
        match mapValues n kv.2 (zeroVal elemT) true exact with
        | .ok v =>
          if assignableTo (typeOf kv.1) keyT then
            match mapMapEntries n rest keyT elemT exact with
            | .ok vs => .ok ((kv.1, v) :: vs)
            | .err e => .err e
            | .fault m => .fault m
            | .nofuel => .nofuel
          else .fault (setMapIndexPanicMsg (typeOf kv.1) keyT)
        | .err e => .err e
        | .fault m => .fault m
        | .nofuel => .nofuel) := rfl

/-- One-step unfolding of mapMap at positive fuel. -/
theorem mapMap_succ (n : Nat) (sourceVal destVal : GoVal) (exact : Bool) :
    mapMap (n + 1) sourceVal destVal exact =
      (if typeName (keyOf (typeOf sourceVal)) ≠ typeName (keyOf (typeOf destVal)) then
        .err (.mapKeyTypesNotEqual (typeName (keyOf (typeOf sourceVal))) (typeName (keyOf (typeOf destVal))))
      else
        match mapMapEntries n (mapEntriesOf sourceVal) (keyOf (typeOf destVal)) (elemOfMap (typeOf destVal)) exact with
        | .ok es =>
          if mapLen sourceVal = 0 then
            match verifyMapElemTypesAreCompatible n sourceVal destVal exact with
            | .ok _ => .ok (.mapV (keyOf (typeOf destVal)) (elemOfMap (typeOf destVal)) 0 false es)
            | .err e => .err e
            | .fault m => .fault m
            | .nofuel => .nofuel
          else .ok (.mapV (keyOf (typeOf destVal)) (elemOfMap (typeOf destVal)) 0 false es)
        | .err e => .err e
        | .fault m => .fault m
        | .nofuel => .nofuel) := rfl

/-- One-step unfolding of verifyMapElemTypesAreCompatible at positive fuel. -/
theorem verifyMapElem_succ (n : Nat) (sourceVal destVal : GoVal) (exact : Bool) :
    verifyMapElemTypesAreCompatible (n + 1) sourceVal destVal exact =
      mapValues n (zeroVal (elemOfMap (typeOf sourceVal))) (zeroVal (elemOfMap (typeOf destVal)))
        true exact := rfl


/-
  Concrete types and values used by the witnesses and examples.
-/

def intT : GoType := .prim "" "int" "int"
def stringT : GoType := .prim "" "string" "string"
def uint64T : GoType := .prim "" "uint64" "uint64"

/-- A struct type with an exported string field and an unexported
slice-typed field (reference-typed payload). -/
def locT : GoType :=
  .strct "main" "Location"
    (.cons "Name" false true stringT
      (.cons "zone" false false (.slice stringT) .nil))

/-- A concrete Location value with non-zero data in both fields; the
unexported slice field carries reference id 42. -/
def locV : GoVal :=
  .strct locT [.prim stringT 7, .sliceV stringT 42 false [.prim stringT 3]]

/-- The identical-type fast path of mapValues, as a reusable lemma. -/
theorem mapValues_fastpath (n : Nat) (v destv : GoVal) (exact : Bool)
    (h : typeOf destv = typeOf v) :
    mapValues (n + 1) v destv true exact = .ok v := by
  simp [mapValues, h, teq_refl]

/-- A type of struct kind is a struct type. -/
theorem exists_strct_of_kind (t : GoType) (h : kindOf t = .kStruct) :
    ∃ p nm fs, t = .strct p nm fs := by
  cases t <;> simp [kindOf] at h ⊢

/-- C1: identity on equal types. If the destination is settable and its
runtime type exactly equals the source's runtime type, mapValues assigns
the source value directly and succeeds: the resulting destination is the
source value itself, hence deep-equal on value-typed fields and
reference-aliased (same reference id) on pointer/slice/map-typed fields,
including fields not exported outside the type. -/
theorem c1_identity_fast_path (n : Nat) (v destv : GoVal) (exact : Bool)
    (h : typeOf destv = typeOf v) :
    mapValues (n + 1) v destv true exact = .ok v :=
  mapValues_fastpath n v destv exact h

/-- C1 witness: a concrete value of a struct type with an unexported
reference-typed field, mapped into a fresh zero destination of the same
type, is transferred wholesale (unexported field and reference id 42
included). -/
theorem c1_witness :
    typeOf (zeroVal locT) = typeOf locV ∧
      mapValues 5 locV (zeroVal locT) true false = .ok locV :=
  ⟨rfl, c1_identity_fast_path 4 locV (zeroVal locT) false rfl⟩

/-- C3: map key type enforcement. The associative mapper compares the two
key types by name first and returns the "map key types are not equal"
error immediately on mismatch, independently of either map's contents or
nilness and of the strictness mode. -/
theorem c3_map_key_type_enforcement (n : Nat) (ks vs kd vd : GoType)
    (i1 i2 : Nat) (nl1 nl2 : Bool) (es1 es2 : List (GoVal × GoVal)) (exact : Bool)
    (h : typeName ks ≠ typeName kd) :
    mapMap (n + 1) (.mapV ks vs i1 nl1 es1) (.mapV kd vd i2 nl2 es2) exact =
      .err (.mapKeyTypesNotEqual (typeName ks) (typeName kd)) := by
  simp only [mapMap, typeOf, keyOf]
  rw [if_pos h]

/-- C3 witness: a non-empty map with string keys mapped into an int-keyed
destination fails with the key-type error, in strict mode here. -/
theorem c3_witness :
    typeName stringT ≠ typeName intT ∧
      mapMap 3 (.mapV stringT intT 1 false [(.prim stringT 1, .prim intT 2)])
          (.mapV intT intT 0 true []) true =
        .err (.mapKeyTypesNotEqual "string" "int") :=
  ⟨by decide,
   c3_map_key_type_enforcement 2 stringT intT intT intT 1 0 false true
     [(.prim stringT 1, .prim intT 2)] [] true (by decide)⟩

/-- Source and destination struct types for the strict/loose divergence
example: S has only field A, D has fields A and B. -/
def srcST : GoType := .strct "main" "S" (.cons "A" false true intT .nil)

def dstDT : GoType :=
  .strct "main" "D" (.cons "A" false true intT (.cons "B" false true intT .nil))

def srcSV : GoVal := .strct srcST [.prim intT 9]

/-- C5: strict vs loose divergence on a missing source field. For a
settable, non-anonymous destination field whose name resolves to no field
on the source (typeFieldIndex is empty, i.e. FieldByName fails), loose
mode (exact = false) returns success with the destination unchanged
(so a fresh destination keeps the field's zero value), and strict mode
(exact = true) returns the "does not contain related field" error. -/
theorem c5_missing_field_modes (n : Nat) (source destv : GoVal) (i : Nat)
    (nm : String) (ft : GoType)
    (h1 : fieldDeclAt (typeOf destv) i = ⟨nm, false, true, ft⟩)
    (h2 : typeFieldIndex (typeOf source) nm = []) :
    mapField (n + 2) source destv true i false = .ok destv ∧
      mapField (n + 2) source destv true i true =
        .err (.fieldMissing nm (typeOf source) (typeOf destv)) := by
  constructor <;>
    simp [mapField, mapFieldBody, h1, h2, valueIsContainedInNilEmbeddedType, fieldByNameV]

/-- C5 witness: destination field B (index 1) of D is absent from S; loose
mapping of field B succeeds leaving the fresh destination at its zero
value, strict mapping fails with the missing-field error. -/
theorem c5_witness :
    mapField 7 srcSV (zeroVal dstDT) true 1 false = .ok (zeroVal dstDT) ∧
      mapField 7 srcSV (zeroVal dstDT) true 1 true =
        .err (.fieldMissing "B" srcST dstDT) :=
  c5_missing_field_modes 5 srcSV (zeroVal dstDT) 1 "B" intT rfl rfl

/-- C6: nil source into a struct destination. With a struct destination
and a nil-pointer source, mapValues substitutes a zero-valued instance of
the pointee type and, if that is a struct, proceeds with the ordinary
destination-field loop over the zero source (yielding default destination
fields when the loop succeeds); if the normalized source is not a struct,
it fails with the shape-mismatch error naming both kinds. -/
theorem c6_nil_source_struct_dest (n : Nat) (pt : GoType) (p nm : String)
    (fs : GoFields) (dfs : List GoVal) (exact : Bool) :
    (kindOf pt = .kStruct →
       mapValues (n + 1) (.ptrNil pt) (.strct (.strct p nm fs) dfs) true exact =
         mapFieldsFrom n (zeroVal pt) (.strct (.strct p nm fs) dfs) true exact 0 fs.length) ∧
    (kindOf pt ≠ .kStruct →
       mapValues (n + 1) (.ptrNil pt) (.strct (.strct p nm fs) dfs) true exact =
         .err (.kindMismatch "struct" (kindStr pt))) := by
  constructor <;> intro hk
  · obtain ⟨q, qn, qfs, hq⟩ := exists_strct_of_kind pt hk
    subst hq
    simp [mapValues, typeOf, teq, kindOf, isReflectValNil, elemOfPtr, derefIfPtr,
      zeroVal, numFields, declsOf]
  · cases pt <;>
      first
        | exact absurd rfl hk
        | simp [mapValues, typeOf, teq, isReflectValNil, derefIfPtr, elemOfPtr,
            kindOf, kindStr, zeroVal]

/-- C6 witness: mapping a nil pointer to S into a fresh D-typed struct
destination proceeds over a zero-valued S (first conjunct), concretely
yielding all-default destination fields and no error (second conjunct);
a nil pointer to int into a struct destination fails with the
struct/int shape-mismatch error (third and fourth conjuncts). -/
theorem c6_witness :
    (mapValues 9 (.ptrNil srcST) (zeroVal dstDT) true false =
        mapFieldsFrom 8 (zeroVal srcST) (zeroVal dstDT) true false 0 2) ∧
      mapFieldsFrom 8 (zeroVal srcST) (zeroVal dstDT) true false 0 2 = .ok (zeroVal dstDT) ∧
      (mapValues 9 (.ptrNil intT) (zeroVal dstDT) true false =
          .err (.kindMismatch "struct" "int")) :=
  ⟨(c6_nil_source_struct_dest 8 srcST "main" "D"
      (.cons "A" false true intT (.cons "B" false true intT .nil))
      (zeroFields (.cons "A" false true intT (.cons "B" false true intT .nil))) false).1 rfl,
   rfl,
   (c6_nil_source_struct_dest 8 intT "main" "D"
      (.cons "A" false true intT (.cons "B" false true intT .nil))
      (zeroFields (.cons "A" false true intT (.cons "B" false true intT .nil))) false).2
     (by simp [intT, kindOf])⟩

/-- Types for the embedded-nil short-circuit: Inner has field Name, S8
embeds a *Inner (nil in the example value), D8 wants field Name. -/
def innerT : GoType := .strct "main" "Inner" (.cons "Name" false true stringT .nil)

def embST : GoType := .strct "main" "S8" (.cons "Inner" true true (.ptr innerT) .nil)

def embSV : GoVal := .strct embST [.ptrNil innerT]

def dstD8T : GoType := .strct "main" "D8" (.cons "Name" false true stringT .nil)

/-- C8: embedded-nil short-circuit. For a settable non-anonymous
destination field whose name resolves on the source only through a
promotion path of length greater than one, if evaluating the path without
its last step yields a nil pointer parent, mapField skips the field
silently (success, destination unchanged) in both loose and strict modes,
with no fault. -/
theorem c8_embedded_nil_skip (n : Nat) (source destv : GoVal) (i : Nat)
    (nm : String) (ft : GoType) (exact : Bool) (p : List Nat) (par : GoVal)
    (h1 : fieldDeclAt (typeOf destv) i = ⟨nm, false, true, ft⟩)
    (h2 : typeFieldIndex (typeOf source) nm = p)
    (h3 : 1 < p.length)
    (h4 : fieldByIndexV source p.dropLast = .ok par)
    (h5 : isReflectValNil par = true) :
    mapField (n + 2) source destv true i exact = .ok destv := by
  simp [mapField, mapFieldBody, h1, valueIsContainedInNilEmbeddedType, h2, h3, h4, h5]

/-- C8 witness: the destination field Name is promoted through S8's nil
embedded *Inner; mapField skips it silently in loose and in strict mode. -/
theorem c8_witness :
    mapField 6 embSV (zeroVal dstD8T) true 0 false = .ok (zeroVal dstD8T) ∧
      mapField 6 embSV (zeroVal dstD8T) true 0 true = .ok (zeroVal dstD8T) :=
  ⟨c8_embedded_nil_skip 4 embSV (zeroVal dstD8T) 0 "Name" stringT false [0, 0]
      (.ptrNil innerT) rfl rfl (by decide) rfl rfl,
   c8_embedded_nil_skip 4 embSV (zeroVal dstD8T) 0 "Name" stringT true [0, 0]
      (.ptrNil innerT) rfl rfl (by decide) rfl rfl⟩

/-- C2: empty-container compatibility probing. For a zero-length source
slice, mapSlice fails with a returned error exactly when the
verifySliceTypesAreCompatible probe does, and on probe success installs
an empty destination slice; likewise, for a zero-length source map whose
key type name matches the destination's, mapMap fails exactly when the
verifyMapElemTypesAreCompatible probe does and on probe success installs
an empty destination map. The probes themselves run the ordinary
recursive copy on one synthetic zero-valued source element against a
synthetic destination slot (their definitions), so an element/value shape
incompatibility is reported for an empty container exactly as the probe
reports it. -/
theorem c2_empty_probe (n : Nat) (sT : GoType) (sid : Nat) (snl : Bool)
    (destv : GoVal) (ks vs : GoType) (mid : Nat) (mnl : Bool) (destm : GoVal)
    (exact : Bool) (hkey : typeName ks = typeName (keyOf (typeOf destm))) :
    ((∀ e, mapSlice (n + 1) (.sliceV sT sid snl []) destv exact = .err e ↔
        verifySliceTypesAreCompatible n (.sliceV sT sid snl []) destv exact = .err e) ∧
     (∀ w, verifySliceTypesAreCompatible n (.sliceV sT sid snl []) destv exact = .ok w →
        mapSlice (n + 1) (.sliceV sT sid snl []) destv exact =
          .ok (.sliceV (elemOfSlice (typeOf destv)) 0 false []))) ∧
    ((∀ e, mapMap (n + 1) (.mapV ks vs mid mnl []) destm exact = .err e ↔
        verifyMapElemTypesAreCompatible n (.mapV ks vs mid mnl []) destm exact = .err e) ∧
     (∀ w, verifyMapElemTypesAreCompatible n (.mapV ks vs mid mnl []) destm exact = .ok w →
        mapMap (n + 1) (.mapV ks vs mid mnl []) destm exact =
          .ok (.mapV (keyOf (typeOf destm)) (elemOfMap (typeOf destm)) 0 false []))) := by
  cases n with
  | zero =>
    refine ⟨⟨?_, ?_⟩, ⟨?_, ?_⟩⟩ <;>
      intro e <;>
      simp [mapSlice, mapSliceElems, verifySliceTypesAreCompatible, mapMap,
        mapMapEntries, verifyMapElemTypesAreCompatible, mapValues, hkey, typeOf,
        keyOf, mapEntriesOf, sliceElemsOf]
  | succ m =>
    constructor
    · constructor
      · intro e
        cases h : verifySliceTypesAreCompatible (m + 1) (.sliceV sT sid snl []) destv exact <;>
          simp [mapSlice, mapSliceElems, sliceElemsOf, sliceLen, h]
      · intro w h
        simp [mapSlice, mapSliceElems, sliceElemsOf, sliceLen, h]
    · constructor
      · intro e
        cases h : verifyMapElemTypesAreCompatible (m + 1) (.mapV ks vs mid mnl []) destm exact <;>
          simp [mapMap, mapMapEntries, mapEntriesOf, mapLen, typeOf, keyOf, hkey, h]
      · intro w h
        simp [mapMap, mapMapEntries, mapEntriesOf, mapLen, typeOf, keyOf, hkey, h]

/-- C2 witness: an empty non-nil map with string values cannot map into a
string-keyed map with int values (the probe's shape error surfaces even
with zero entries), while an empty map with int values into the same
destination succeeds and installs an empty destination map. -/
theorem c2_witness :
    mapMap 9 (.mapV stringT stringT 0 false []) (zeroVal (.gomap stringT intT)) false =
        .err (.notCompatible "string" "int") ∧
      mapMap 9 (.mapV stringT intT 0 false []) (zeroVal (.gomap stringT intT)) false =
        .ok (.mapV stringT intT 0 false []) :=
  ⟨((c2_empty_probe 8 stringT 0 false (zeroVal (.slice intT)) stringT stringT 0 false
        (zeroVal (.gomap stringT intT)) false rfl).2.1
      (.notCompatible "string" "int")).mpr rfl,
   (c2_empty_probe 8 stringT 0 false (zeroVal (.slice intT)) stringT intT 0 false
        (zeroVal (.gomap stringT intT)) false rfl).2.2
     (.prim intT 0) rfl⟩

/-- Two identically named defined key types from different packages. -/
def aKT : GoType := .prim "pkga" "K" "int"

def bKT : GoType := .prim "pkgb" "K" "int"

/-- C10 counterexample: the claim as stated fails. Mapping a non-empty
map keyed by pkga's K into a map keyed by pkgb's K passes the name-only
key check, but the insertion itself does not succeed: SetMapIndex panics
because pkga.K is not assignable to the distinct defined type pkgb.K, so
the run faults (to be recovered as an error at the top-level Map) instead
of installing the source keys in the destination. -/
theorem c10_counterexample :
    mapMap 4 (.mapV aKT intT 7 false [(.prim aKT 1, .prim intT 5)])
        (.mapV bKT intT 0 true []) false =
      .fault (setMapIndexPanicMsg aKT bKT) := rfl

/-- C10 (amended): the associative mapper's key compatibility check
compares only the key types' names, never their identity. For any two
named scalar key types sharing a name but declared in different packages
(hence distinct types), the "map key types not equal" error is not
raised and mapping proceeds past the key check: an empty source map
(with the same value type on both sides) succeeds and installs an empty
destination map, while a non-empty source faults at the first
SetMapIndex insertion because the source key type is not assignable to
the distinct destination key type — the fault, not a key-type error,
is what ends the run. -/
theorem c10_key_check_by_name_only (n : Nat) (p1 p2 knm kk1 kk2 : String)
    (vt : GoType) (i1 i2 : Nat) (nl2 : Bool) (es2 : List (GoVal × GoVal))
    (exact : Bool) (kd0 : Nat) (v0 : GoVal) (rest : List (GoVal × GoVal))
    (hp : p1 ≠ p2) (hv : typeOf v0 = vt) :
    (mapMap (n + 3) (.mapV (.prim p1 knm kk1) vt i1 false [])
        (.mapV (.prim p2 knm kk2) vt i2 nl2 es2) exact =
      .ok (.mapV (.prim p2 knm kk2) vt 0 false [])) ∧
    (mapMap (n + 3)
        (.mapV (.prim p1 knm kk1) vt i1 false
          ((.prim (.prim p1 knm kk1) kd0, v0) :: rest))
        (.mapV (.prim p2 knm kk2) vt i2 nl2 es2) exact =
      .fault (setMapIndexPanicMsg (.prim p1 knm kk1) (.prim p2 knm kk2))) := by
  constructor
  · have hfast : mapValues (n + 1) (zeroVal vt) (zeroVal vt) true exact = .ok (zeroVal vt) :=
      mapValues_fastpath n (zeroVal vt) (zeroVal vt) exact rfl
    simp [mapMap_succ, mapMapEntries_succ, verifyMapElem_succ, typeOf, keyOf,
      elemOfMap, mapEntriesOf, mapLen, typeName, hfast]
  · have hfast : mapValues (n + 1) v0 (zeroVal vt) true exact = .ok v0 :=
      mapValues_fastpath n v0 (zeroVal vt) exact (by rw [typeOf_zeroVal, hv])
    have hassign : assignableTo (.prim p1 knm kk1) (.prim p2 knm kk2) = false := by
      simp [assignableTo, teq, underlying, hp]
    simp [mapMap_succ, mapMapEntries_succ, typeOf, keyOf, elemOfMap, mapEntriesOf,
      typeName, hfast, hassign]

/-- C10 witness: at the concrete distinct same-named key types aKT and
bKT, the empty-source mapping succeeds with an empty destination map (no
key-type error despite the distinct key types), and the one-entry source
faults at the SetMapIndex insertion. -/
theorem c10_witness :
    (mapMap 4 (.mapV aKT intT 1 false []) (.mapV bKT intT 0 true []) false =
        .ok (.mapV bKT intT 0 false [])) ∧
      (mapMap 4 (.mapV aKT intT 7 false [(.prim aKT 1, .prim intT 5)])
          (.mapV bKT intT 0 true []) false =
        .fault (setMapIndexPanicMsg aKT bKT)) :=
  ⟨(c10_key_check_by_name_only 1 "pkga" "pkgb" "K" "int" "int" intT 1 0 true [] false
      1 (.prim intT 5) [] (by decide) rfl).1,
   (c10_key_check_by_name_only 1 "pkga" "pkgb" "K" "int" "int" intT 7 0 true [] false
      1 (.prim intT 5) [] (by decide) rfl).2⟩

/-- A concrete array value, input to the nilness oracle. -/
def arrIntV : GoVal := .arrV intT [.prim intT 5]

/-- C9: evaluation of IsAnyNil at an array-kinded input. The kind switch
of IsAnyNil includes the array kind, so it calls reflect.Value.IsNil on
an array value, which panics rather than returning false: the oracle
faults on array inputs instead of classifying them. -/
theorem c9_isAnyNil_array_faults :
    isAnyNilB (some arrIntV) =
      .error "reflect: call of reflect.Value.IsNil on array Value" := rfl

/-- C7: no raw fault escapes a call. First part: the top-level Map always
converts a propagating panic into a returned error, so its result is
never a fault, for every input. Second part: any fault that emerges from
mapField carries the descriptive message built from the field name, both
types and the original fault (the field-boundary re-raise), never a raw
inner fault. -/
theorem c7_no_raw_fault_escapes :
    (∀ (n : Nat) (source dest : Option GoVal) (options : List Bool) (m : String),
       MapGo n source dest options ≠ .fault m) ∧
    (∀ (n : Nat) (source destv : GoVal) (canset : Bool) (i : Nat) (exact : Bool) (m : String),
       mapField n source destv canset i exact = .fault m →
         ∃ r, m = fieldFaultMsg (fieldDeclAt (typeOf destv) i).name
           (typeOf destv) (typeOf source) r) := by
  constructor
  · intro n source dest options m
    cases h : mapBody n source dest options <;> simp [MapGo, convertRecover, h]
  · intro n source destv canset i exact m
    cases n with
    | zero => intro h; simp [mapField] at h
    | succ k =>
      intro h
      have hmf : mapField (k + 1) source destv canset i exact =
          (match mapFieldBody k source destv canset i exact with
            | .fault r =>
                Res.fault (fieldFaultMsg (fieldDeclAt (typeOf destv) i).name
                  (typeOf destv) (typeOf source) r)
            | r => r) := rfl
      rw [hmf] at h
      cases hb : mapFieldBody k source destv canset i exact <;> rw [hb] at h
      case ok v => simp at h
      case err e => simp at h
      case fault r => simp at h; exact ⟨r, h.symm⟩
      case nofuel => simp at h

/-- Types for the C7 witness: Outer7 embeds *Mid7 (nil in the example),
Mid7 embeds *Inner7, Inner7 declares Name; resolving Name on an Outer7
value must step through the nil *Mid7 and panics inside reflection. -/
def innr7T : GoType := .strct "main" "Inner7" (.cons "Name" false true stringT .nil)

def mid7T : GoType := .strct "main" "Mid7" (.cons "Inner7" true true (.ptr innr7T) .nil)

def outer7T : GoType := .strct "main" "Outer7" (.cons "Mid7" true true (.ptr mid7T) .nil)

def outer7V : GoVal := .strct outer7T [.ptrNil mid7T]

def d7T : GoType := .strct "main" "D7" (.cons "Name" false true stringT .nil)

/-- C7 witness: a concrete Map call does not fault, and the concrete
reflection panic raised beneath field Name (promotion through a nil
embedded pointer two levels down) surfaces from mapField only as the
formatted field-boundary message. -/
theorem c7_witness :
    (MapGo 3 (some (.prim intT 1)) (some (.ptrTo intT 5 (.prim intT 0))) [] ≠
        .fault "boom") ∧
      (∃ r, fieldFaultMsg "Name" d7T outer7T nilPtrMsg =
          fieldFaultMsg (fieldDeclAt (typeOf (zeroVal d7T)) 0).name
            (typeOf (zeroVal d7T)) (typeOf outer7V) r) :=
  ⟨c7_no_raw_fault_escapes.1 3 (some (.prim intT 1)) (some (.ptrTo intT 5 (.prim intT 0)))
      [] "boom",
   c7_no_raw_fault_escapes.2 2 outer7V (zeroVal d7T) true 0 false
     (fieldFaultMsg "Name" d7T outer7T nilPtrMsg) rfl⟩

/-- Classifier for the non-downgradable shape-mismatch errors: true
exactly for incompatible-leaf, container-kind and map-key mismatches,
false for the loose-downgradable field conditions (and all others). -/
def shapeOnly : MapErr → Bool
  | .notCompatible _ _ => true
  | .kindMismatch _ _ => true
  | .mapKeyTypesNotEqual _ _ => true
  | _ => false


/-- In loose mode, every error returned anywhere in the recursive mapper
is a non-downgradable shape-mismatch error: the field-level conditions
(missing field, unsettable field) are silently skipped and never surface
as errors. Joint induction over the fuel for all mutually recursive
functions. -/
theorem looseShapeAux : ∀ n : Nat,
    (∀ s d c e, mapValues n s d c false = .err e → shapeOnly e = true) ∧
    (∀ s d c i k e, mapFieldsFrom n s d c false i k = .err e → shapeOnly e = true) ∧
    (∀ s d c i e, mapFieldBody n s d c i false = .err e → shapeOnly e = true) ∧
    (∀ s d c i e, mapField n s d c i false = .err e → shapeOnly e = true) ∧
    (∀ xs t e, mapSliceElems n xs t false = .err e → shapeOnly e = true) ∧
    (∀ s d e, mapSlice n s d false = .err e → shapeOnly e = true) ∧
    (∀ s d e, verifySliceTypesAreCompatible n s d false = .err e → shapeOnly e = true) ∧
    (∀ es kt t e, mapMapEntries n es kt t false = .err e → shapeOnly e = true) ∧
    (∀ s d e, mapMap n s d false = .err e → shapeOnly e = true) ∧
    (∀ s d e, verifyMapElemTypesAreCompatible n s d false = .err e → shapeOnly e = true) := by
  intro n
  induction n with
  | zero =>
    refine ⟨?_, ?_, ?_, ?_, ?_, ?_, ?_, ?_, ?_, ?_⟩ <;>
      (intros
       simp_all [mapValues, mapFieldsFrom, mapFieldBody, mapField, mapSliceElems,
         mapSlice, verifySliceTypesAreCompatible, mapMapEntries, mapMap,
         verifyMapElemTypesAreCompatible])
  | succ n ih =>
    obtain ⟨ihV, ihFF, ihFB, ihF, ihSE, ihS, ihVS, ihME, ihM, ihVM⟩ := ih
    refine ⟨?_, ?_, ?_, ?_, ?_, ?_, ?_, ?_, ?_, ?_⟩
    · intro s d c e h
      simp only [mapValues_succ] at h
      repeat' split at h
      all_goals
        first
          | exact Res.noConfusion h
          | solve_by_elim [ihV, ihFF, ihFB, ihF, ihSE, ihS, ihVS, ihME, ihM, ihVM]
          | (cases Res.err.inj h
             first
               | rfl
               | solve_by_elim [ihV, ihFF, ihFB, ihF, ihSE, ihS, ihVS, ihME, ihM, ihVM])
          | simp_all
    · intro s d c i k e h
      simp only [mapFieldsFrom_succ] at h
      repeat' split at h
      all_goals
        first
          | exact Res.noConfusion h
          | solve_by_elim [ihV, ihFF, ihFB, ihF, ihSE, ihS, ihVS, ihME, ihM, ihVM]
          | (cases Res.err.inj h
             first
               | rfl
               | solve_by_elim [ihV, ihFF, ihFB, ihF, ihSE, ihS, ihVS, ihME, ihM, ihVM])
          | simp_all
    · intro s d c i e h
      simp only [mapFieldBody_succ] at h
      repeat' split at h
      all_goals
        first
          | exact Res.noConfusion h
          | solve_by_elim [ihV, ihFF, ihFB, ihF, ihSE, ihS, ihVS, ihME, ihM, ihVM]
          | (cases Res.err.inj h
             first
               | rfl
               | solve_by_elim [ihV, ihFF, ihFB, ihF, ihSE, ihS, ihVS, ihME, ihM, ihVM])
          | simp_all
    · intro s d c i e h
      simp only [mapField_succ] at h
      repeat' split at h
      all_goals
        first
          | exact Res.noConfusion h
          | solve_by_elim [ihV, ihFF, ihFB, ihF, ihSE, ihS, ihVS, ihME, ihM, ihVM]
          | (cases Res.err.inj h
             first
               | rfl
               | solve_by_elim [ihV, ihFF, ihFB, ihF, ihSE, ihS, ihVS, ihME, ihM, ihVM])
          | simp_all
    · intro xs t e h
      simp only [mapSliceElems_succ] at h
      repeat' split at h
      all_goals
        first
          | exact Res.noConfusion h
          | solve_by_elim [ihV, ihFF, ihFB, ihF, ihSE, ihS, ihVS, ihME, ihM, ihVM]
          | (cases Res.err.inj h
             first
               | rfl
               | solve_by_elim [ihV, ihFF, ihFB, ihF, ihSE, ihS, ihVS, ihME, ihM, ihVM])
          | simp_all
    · intro s d e h
      simp only [mapSlice_succ] at h
      repeat' split at h
      all_goals
        first
          | exact Res.noConfusion h
          | solve_by_elim [ihV, ihFF, ihFB, ihF, ihSE, ihS, ihVS, ihME, ihM, ihVM]
          | (cases Res.err.inj h
             first
               | rfl
               | solve_by_elim [ihV, ihFF, ihFB, ihF, ihSE, ihS, ihVS, ihME, ihM, ihVM])
          | simp_all
    · intro s d e h
      simp only [verifySlice_succ] at h
      solve_by_elim [ihV, ihFF, ihFB, ihF, ihSE, ihS, ihVS, ihME, ihM, ihVM]
    · intro es kt t e h
      simp only [mapMapEntries_succ] at h
      repeat' split at h
      all_goals
        first
          | exact Res.noConfusion h
          | solve_by_elim [ihV, ihFF, ihFB, ihF, ihSE, ihS, ihVS, ihME, ihM, ihVM]
          | (cases Res.err.inj h
             first
               | rfl
               | solve_by_elim [ihV, ihFF, ihFB, ihF, ihSE, ihS, ihVS, ihME, ihM, ihVM])
          | simp_all
    · intro s d e h
      simp only [mapMap_succ] at h
      repeat' split at h
      all_goals
        first
          | exact Res.noConfusion h
          | solve_by_elim [ihV, ihFF, ihFB, ihF, ihSE, ihS, ihVS, ihME, ihM, ihVM]
          | (cases Res.err.inj h
             first
               | rfl
               | solve_by_elim [ihV, ihFF, ihFB, ihF, ihSE, ihS, ihVS, ihME, ihM, ihVM])
          | simp_all
    · intro s d e h
      simp only [verifyMapElem_succ] at h
      solve_by_elim [ihV, ihFF, ihFB, ihF, ihSE, ihS, ihVS, ihME, ihM, ihVM]

/-- Source and destination types for the C4 propagation example: mapping
S4 (with int field A) into D4 (whose field A is a struct) produces a
container/element shape mismatch two levels down. -/
def c4SrcT : GoType := .strct "main" "S4" (.cons "A" false true intT .nil)

def c4DstT : GoType :=
  .strct "main" "D4"
    (.cons "A" false true (.strct "main" "In4" (.cons "X" false true intT .nil)) .nil)

def c4SrcV : GoVal := .strct c4SrcT [.prim intT 3]

/-- C4: non-downgradable shape mismatches in loose mode. First part:
every error returned by mapValues in loose mode (exact = false) is a
container/element shape-mismatch error (incompatible leaf types, wrong
container kind, map key mismatch) — the missing-field and
unsettable-field conditions are the only downgrades and never surface as
errors. Second part: a concrete nested incompatible-element error
(struct field A expects a struct but the source field is an int) is not
downgraded: it propagates through the field loop to the top of the
loose-mode run. -/
theorem c4_loose_nondowngradable :
    (∀ (n : Nat) (s d : GoVal) (c : Bool) (e : MapErr),
        mapValues n s d c false = .err e → shapeOnly e = true) ∧
      mapValues 9 c4SrcV (zeroVal c4DstT) true false =
        .err (.kindMismatch "struct" "int") :=
  ⟨fun n s d c e h => (looseShapeAux n).1 s d c e h, rfl⟩

/-- C4 witness: applying the universal part at the concrete propagated
error of the second part. -/
theorem c4_witness : shapeOnly (.kindMismatch "struct" "int") = true :=
  c4_loose_nondowngradable.1 9 c4SrcV (zeroVal c4DstT) true
    (.kindMismatch "struct" "int") rfl

end Gomapper
